import Mathlib

/-!
Shallow embedding of the invoicing application's core (src/app.py):
the invoice store (create / replace / delete), the per-user numbering
policy, the categorization engine and the PDF renderer's text layout.

Request bodies are modelled as JSON-like values (`JVal`); the Postgres
tables are modelled as lists of rows (`DB`); each HTTP handler becomes a
function `DB -> ... -> Resp × DB`.  A handler body runs inside
`Except Unit`: a raised Python exception (or a Postgres error) is
`Except.error ()`, and the surrounding handler maps it to the HTTP
response the Flask code produces while returning the *original* store,
which models the transaction rollback (`db.rollback()` in
`create_invoice`, and psycopg2's implicit rollback when the per-request
connection is closed without a commit for the uncaught-exception path of
`modify_invoice`).
-/

/-- JSON values as delivered by `request.get_json()`. -/
inductive JVal where
  | null
  | jbool (b : Bool)
  | num (q : ℚ)
  | jstr (s : String)
  | arr (xs : List JVal)
  | obj (kvs : List (String × JVal))

/-- Python truthiness (`if not data`, `if not invoice_number`):
`None`, `False`, `0`, `""`, `[]`, `{}` are falsy. -/
def jFalsy : JVal → Bool
  | .null => true
  | .jbool b => !b
  | .num q => q == 0
  | .jstr s => s.isEmpty
  | .arr xs => xs.isEmpty
  | .obj kvs => kvs.isEmpty

/-- `d.get(k)`: `None` when the key is absent; raises `AttributeError`
(modelled as `Except.error`) when the receiver is not a dict. -/
def jget (v : JVal) (k : String) : Except Unit JVal :=
  match v with
  | .obj kvs => .ok ((kvs.lookup k).getD .null)
  | _ => .error ()

/-- `d.get(k, dflt)`. -/
def jgetD (v : JVal) (k : String) (dflt : JVal) : Except Unit JVal :=
  match v with
  | .obj kvs => .ok ((kvs.lookup k).getD dflt)
  | _ => .error ()

/-- Python iteration `for x in v`: lists yield their elements, strings
their characters, dicts their keys; other values raise `TypeError`. -/
def pyIter : JVal → Except Unit (List JVal)
  | .arr xs => .ok xs
  | .jstr s => .ok (s.data.map fun c => .jstr (String.singleton c))
  | .obj kvs => .ok (kvs.map fun kv => .jstr kv.1)
  | _ => .error ()

def digitVal (c : Char) : ℕ := c.toNat - 48

def digitsVal (cs : List Char) : ℕ := cs.foldl (fun a c => 10 * a + digitVal c) 0

/-- Strip the leading and trailing whitespace Python's numeric
constructors ignore. -/
def stripWs (cs : List Char) : List Char :=
  ((cs.dropWhile Char.isWhitespace).reverse.dropWhile Char.isWhitespace).reverse

def parseSign : List Char → (Bool × List Char)
  | '-' :: rest => (true, rest)
  | '+' :: rest => (false, rest)
  | cs => (false, cs)

/-- `int(s)` on a string: optional sign then decimal digits
(`ValueError` otherwise). -/
def parseIntStr (s : String) : Option ℤ :=
  let cs := stripWs s.data
  let p := parseSign cs
  if p.2.isEmpty || !p.2.all Char.isDigit then none
  else some (if p.1 then -(digitsVal p.2 : ℤ) else (digitsVal p.2 : ℤ))

def parseExpApply (mant : ℚ) (cs : List Char) : Option ℚ :=
  let p := parseSign cs
  if p.2.isEmpty || !p.2.all Char.isDigit then none
  else
    let e := digitsVal p.2
    some (if p.1 then mant / 10 ^ e else mant * 10 ^ e)

/-- `float(s)` on a string: sign, digits with an optional fractional
part, optional exponent; the value is kept exact as a rational.
(IEEE special strings such as "inf"/"nan" have no rational counterpart
and are outside this model; no claim exercises them.) -/
def parseFloatStr (s : String) : Option ℚ :=
  let cs := stripWs s.data
  let p := parseSign cs
  let ip := p.2.takeWhile Char.isDigit
  let cs2 := p.2.dropWhile Char.isDigit
  let fpr : List Char × List Char :=
    match cs2 with
    | '.' :: rest => (rest.takeWhile Char.isDigit, rest.dropWhile Char.isDigit)
    | _ => ([], cs2)
  if ip.isEmpty && fpr.1.isEmpty then none
  else
    let mant0 : ℚ := (digitsVal ip : ℚ) + (digitsVal fpr.1 : ℚ) / (10 : ℚ) ^ fpr.1.length
    let mant : ℚ := if p.1 then -mant0 else mant0
    match fpr.2 with
    | [] => some mant
    | 'e' :: rest => parseExpApply mant rest
    | 'E' :: rest => parseExpApply mant rest
    | _ => none

/-- `int(x)` truncates a numeric value toward zero. -/
def pyTrunc (q : ℚ) : ℤ := Int.tdiv q.num q.den

/-- Python `int(x)`: numbers truncate toward zero, booleans map to 0/1,
numeric strings parse; `None`, lists and dicts raise. -/
def pyInt : JVal → Except Unit ℤ
  | .num q => .ok (pyTrunc q)
  | .jbool b => .ok (if b then 1 else 0)
  | .jstr s => match parseIntStr s with
    | some n => .ok n
    | none => .error ()
  | _ => .error ()

/-- Python `float(x)` (exact-rational model). -/
def pyFloat : JVal → Except Unit ℚ
  | .num q => .ok q
  | .jbool b => .ok (if b then 1 else 0)
  | .jstr s => match parseFloatStr s with
    | some q => .ok q
    | none => .error ()
  | _ => .error ()

/-- `float(data.get("total_amount", 0))` wrapped in
`except (ValueError, TypeError): total_amount = 0.0` — every failure of
`float` is one of those two, so the parse defaults to 0. -/
def defFloat (v : JVal) : ℚ :=
  match pyFloat v with
  | .ok q => q
  | .error _ => 0

def pad2 (n : ℕ) : String := if n < 10 then "0" ++ toString n else toString n

/-- Round the fraction `n / d` (with `d > 0`) to the nearest integer,
ties to even, computed on the raw numerator and denominator. -/
def rhe (n d : ℤ) : ℤ :=
  let f := n.fdiv d
  let r := n - f * d
  if 2 * r < d then f
  else if d < 2 * r then f + 1
  else if f % 2 = 0 then f else f + 1

/-- Round a rational to the nearest integer, ties to even (the rounding
of both Python's `format(x, '.2f')` and Postgres' float→integer
assignment cast, idealized over exact rationals). -/
def roundHalfEven (q : ℚ) : ℤ := rhe q.num (q.den : ℤ)

/-- Python `f"{x:.2f}"` on the exact-rational model of a float: round
`q * 100 = (100 * num) / den` to an integer count of cents, ties to
even, then print with two decimals. -/
def fmt2 (q : ℚ) : String :=
  let c := rhe (100 * q.num) (q.den : ℤ)
  let a := c.natAbs
  let base := toString (a / 100) ++ "." ++ pad2 (a % 100)
  if c < 0 then "-" ++ base else base

/-- Storing a JSON value into a Postgres TEXT column: strings and NULL
are accepted; numbers, booleans, arrays and objects make the INSERT
fail (no implicit cast to text). -/
def sqlText : JVal → Except Unit (Option String)
  | .null => .ok none
  | .jstr s => .ok (some s)
  | _ => .error ()

/-- Storing a JSON value into a Postgres INTEGER column: integers pass
through, floats round via the assignment cast, numeric string literals
are coerced by `int4in`; other values make the INSERT fail.  (The
`None` case is unreachable in `create_invoice`: it is guarded by the
falsiness check on the supplied invoice number.) -/
def sqlInt : JVal → Except Unit ℤ
  | .num q => .ok (if q.den == 1 then q.num else roundHalfEven q)
  | .jstr s => match parseIntStr s with
    | some n => .ok n
    | none => .error ()
  | _ => .error ()

/-! ## The persisted relations (tables `invoices`, `customers`, `items`) -/

/-- A row of the `invoices` table. -/
structure InvRow where
  id : ℤ
  invoice_number : ℤ
  creation_date : Option String
  company_name : Option String
  company_address : Option String
  company_email : Option String
  total_amount : ℚ
  user_id : ℤ
deriving DecidableEq

/-- A row of the `customers` table. -/
structure CustRow where
  id : ℤ
  invoice_id : ℤ
  name : Option String
  address : Option String
  email : Option String
deriving DecidableEq

/-- A row of the `items` table. -/
structure ItemRow where
  id : ℤ
  customer_id : ℤ
  description : Option String
  quantity : ℤ
  unit_price : ℚ
deriving DecidableEq

/-- The store: the three invoice-aggregate tables plus the SERIAL
counters backing each table's `id`. -/
structure DB where
  invoices : List InvRow
  customers : List CustRow
  items : List ItemRow
  nextInvoiceId : ℤ
  nextCustomerId : ℤ
  nextItemId : ℤ
deriving DecidableEq

/-- HTTP responses the modelled handlers can produce. -/
inductive Resp where
  | badRequest
  | notFound
  | createFailed
  | unexpected
  | created (invoice_number : ℤ)
  | okSuccess
  | pdfDoc (cells : List String)
deriving DecidableEq

/-- The HTTP status code of each response. -/
def Resp.status : Resp → ℕ
  | .badRequest => 400
  | .notFound => 404
  | .createFailed => 500
  | .unexpected => 500
  | .created _ => 201
  | .okSuccess => 200
  | .pdfDoc _ => 200

/-- `SELECT id FROM invoices WHERE invoice_number=%s AND user_id=%s`. -/
def findInvoice (s : DB) (u n : ℤ) : Option InvRow :=
  s.invoices.find? (fun r => r.invoice_number == n && r.user_id == u)

/-- `SELECT MAX(invoice_number) FROM invoices WHERE user_id=%s`
(`none` models SQL NULL on an empty selection). -/
def userMax (s : DB) (u : ℤ) : Option ℤ :=
  ((s.invoices.filter (fun r => r.user_id == u)).map (fun r => r.invoice_number)).max?

/-- `mx = result["mx"] if result and result["mx"] else 999;
invoice_number = mx + 1` — note the Python truthiness check treats a
stored maximum of `0` exactly like NULL. -/
def nextNumber (s : DB) (u : ℤ) : ℤ :=
  (match userMax s u with
   | some m => if m ≠ 0 then m else 999
   | none => 999) + 1

def mkInvRow (id n : ℤ) (cd cn ca ce : Option String) (t : ℚ) (u : ℤ) : InvRow :=
  ⟨id, n, cd, cn, ca, ce, t, u⟩

/-- `INSERT INTO invoices ... RETURNING id`; the composite UNIQUE
constraint on `(user_id, invoice_number)` makes the statement raise on
a collision. -/
def insertInvoice (s : DB) (u n : ℤ) (cd cn ca ce : Option String) (t : ℚ) :
    Except Unit (ℤ × DB) :=
  if s.invoices.any (fun r => r.user_id == u && r.invoice_number == n) then .error ()
  else .ok (s.nextInvoiceId,
    { s with
      invoices := s.invoices ++ [mkInvRow s.nextInvoiceId n cd cn ca ce t u],
      nextInvoiceId := s.nextInvoiceId + 1 })

/-- `INSERT INTO customers ... RETURNING id`. -/
def insertCustomer (s : DB) (invId : ℤ) (nm ad em : Option String) : ℤ × DB :=
  (s.nextCustomerId,
   { s with
     customers := s.customers ++ [⟨s.nextCustomerId, invId, nm, ad, em⟩],
     nextCustomerId := s.nextCustomerId + 1 })

/-- `INSERT INTO items ...`. -/
def insertItem (s : DB) (cid : ℤ) (d : Option String) (q : ℤ) (p : ℚ) : DB :=
  { s with
    items := s.items ++ [⟨s.nextItemId, cid, d, q, p⟩],
    nextItemId := s.nextItemId + 1 }

/-- Reading one item dict of a request: `it.get("description")`,
`int(it.get("quantity", 1))`, `float(it.get("unit_price", 0))` — the
two numeric coercions are *not* wrapped in any try/except, so a parse
failure raises out of the handler body. -/
def processItem (it : JVal) : Except Unit (Option String × ℤ × ℚ) :=
  match jget it "description" with
  | .error e => .error e
  | .ok dv =>
    match sqlText dv with
    | .error e => .error e
    | .ok d =>
      match jgetD it "quantity" (.num 1) with
      | .error e => .error e
      | .ok qv =>
        match pyInt qv with
        | .error e => .error e
        | .ok q =>
          match jgetD it "unit_price" (.num 0) with
          | .error e => .error e
          | .ok pv =>
            match pyFloat pv with
            | .error e => .error e
            | .ok p => .ok (d, q, p)

/-- Reading one customer dict of a request:
`c.get("name")`, `c.get("address")`, `c.get("email")`. -/
def processCustomer (c : JVal) : Except Unit (Option String × Option String × Option String) :=
  match jget c "name" with
  | .error e => .error e
  | .ok nv =>
    match sqlText nv with
    | .error e => .error e
    | .ok nm =>
      match jget c "address" with
      | .error e => .error e
      | .ok av =>
        match sqlText av with
        | .error e => .error e
        | .ok ad =>
          match jget c "email" with
          | .error e => .error e
          | .ok ev =>
            match sqlText ev with
            | .error e => .error e
            | .ok em => .ok (nm, ad, em)

/-- `c.get("items", [])` followed by iteration. -/
def custItems (c : JVal) : Except Unit (List JVal) :=
  match jgetD c "items" (.arr []) with
  | .error e => .error e
  | .ok v => pyIter v

/-- `data.get("customers", [])` followed by iteration. -/
def reqCustomers (data : JVal) : Except Unit (List JVal) :=
  match jgetD data "customers" (.arr []) with
  | .error e => .error e
  | .ok v => pyIter v

/-- The inner `for it in c.get("items", [])` loop shared verbatim by
`create_invoice` and `modify_invoice`. -/
def insertItemsLoop (s : DB) (cid : ℤ) (its : List JVal) : Except Unit DB :=
  match its with
  | [] => .ok s
  | it :: rest =>
    match processItem it with
    | .error e => .error e
    | .ok dqp => insertItemsLoop (insertItem s cid dqp.1 dqp.2.1 dqp.2.2) cid rest

/-- The `for c in data.get("customers", [])` loop shared verbatim by
`create_invoice` and `modify_invoice`. -/
def custLoop (s : DB) (invId : ℤ) (cs : List JVal) : Except Unit DB :=
  match cs with
  | [] => .ok s
  | c :: rest =>
    match processCustomer c with
    | .error e => .error e
    | .ok nae =>
      let r := insertCustomer s invId nae.1 nae.2.1 nae.2.2
      match custItems c with
      | .error e => .error e
      | .ok its =>
        match insertItemsLoop r.2 r.1 its with
        | .error e => .error e
        | .ok s2 => custLoop s2 invId rest

/-- The four TEXT header fields of an invoice write:
`data.get("creation_date")`, `data.get("company_name")`,
`data.get("company_address")`, `data.get("company_email")`. -/
def headerFields (data : JVal) :
    Except Unit (Option String × Option String × Option String × Option String) :=
  match jget data "creation_date" with
  | .error e => .error e
  | .ok v1 =>
    match sqlText v1 with
    | .error e => .error e
    | .ok cd =>
      match jget data "company_name" with
      | .error e => .error e
      | .ok v2 =>
        match sqlText v2 with
        | .error e => .error e
        | .ok cn =>
          match jget data "company_address" with
          | .error e => .error e
          | .ok v3 =>
            match sqlText v3 with
            | .error e => .error e
            | .ok ca =>
              match jget data "company_email" with
              | .error e => .error e
              | .ok v4 =>
                match sqlText v4 with
                | .error e => .error e
                | .ok ce => .ok (cd, cn, ca, ce)

/-- The body of `create_invoice` after the invoice number is fixed:
defaulted total parse, header INSERT, then the customer/item loops. -/
def createRest (s : DB) (u : ℤ) (data : JVal) (n : ℤ) : Except Unit DB :=
  match jgetD data "total_amount" (.num 0) with
  | .error e => .error e
  | .ok tv =>
    let total := defFloat tv
    match headerFields data with
    | .error e => .error e
    | .ok f =>
      match insertInvoice s u n f.1 f.2.1 f.2.2.1 f.2.2.2 total with
      | .error e => .error e
      | .ok is1 =>
        match reqCustomers data with
        | .error e => .error e
        | .ok cs => custLoop is1.2 is1.1 cs

/-- The try-block body of `create_invoice`: resolve the invoice number
(delegating to the numbering policy when the supplied value is falsy),
then run `createRest`. -/
def createBody (s : DB) (u : ℤ) (data : JVal) : Except Unit (Resp × DB) :=
  match jget data "invoice_number" with
  | .error e => .error e
  | .ok supplied =>
    match (if jFalsy supplied then .ok (nextNumber s u) else sqlInt supplied :
        Except Unit ℤ) with
    | .error e => .error e
    | .ok n =>
      match createRest s u data n with
      | .error e => .error e
      | .ok s2 => .ok (.created n, s2)

/-- `POST /api/invoices` (`create_invoice`): empty body → 400; any
exception in the body → `db.rollback()` and a generic 500; success →
201 with the invoice number. -/
def create_invoice (s : DB) (u : ℤ) (data : JVal) : Resp × DB :=
  if jFalsy data then (.badRequest, s)
  else
    match createBody s u data with
    | .ok r => r
    | .error _ => (.createFailed, s)

/-- `UPDATE invoices SET ... WHERE id=%s`. -/
def updateInvoice (s : DB) (invId : ℤ) (cd cn ca ce : Option String) (t : ℚ) : DB :=
  { s with
    invoices := s.invoices.map (fun r =>
      if r.id == invId then
        { r with creation_date := cd, company_name := cn, company_address := ca,
                 company_email := ce, total_amount := t }
      else r) }

/-- The hand-rolled cascade: delete the items of every customer of the
invoice, then the customers themselves. -/
def deleteCustomersAndItems (s : DB) (invId : ℤ) : DB :=
  let cids := (s.customers.filter (fun c => c.invoice_id == invId)).map (fun c => c.id)
  { s with
    items := s.items.filter (fun it => !(cids.contains it.customer_id)),
    customers := s.customers.filter (fun c => !(c.invoice_id == invId)) }

/-- The body of `modify_invoice` after the 404 check: header update
(whose `float(data.get("total_amount",0))` is *not* guarded by a
try/except), cascade delete of the old children, re-insert of the new
set. -/
def modifyBody (s : DB) (invId : ℤ) (data : JVal) : Except Unit DB :=
  match jgetD data "total_amount" (.num 0) with
  | .error e => .error e
  | .ok tv =>
    match pyFloat tv with
    | .error e => .error e
    | .ok total =>
      match headerFields data with
      | .error e => .error e
      | .ok f =>
        let s1 := updateInvoice s invId f.1 f.2.1 f.2.2.1 f.2.2.2 total
        let s2 := deleteCustomersAndItems s1 invId
        match reqCustomers data with
        | .error e => .error e
        | .ok cs => custLoop s2 invId cs

/-- `PUT /api/invoices/<int:invoice_number>` (`modify_invoice`): empty
body → 400; unknown `(user_id, invoice_number)` → 404; an uncaught
exception reaches the generic Flask handler (500) and the transaction
is discarded when the request's connection closes uncommitted. -/
def modify_invoice (s : DB) (u n : ℤ) (data : JVal) : Resp × DB :=
  if jFalsy data then (.badRequest, s)
  else
    match findInvoice s u n with
    | none => (.notFound, s)
    | some inv =>
      match modifyBody s inv.id data with
      | .ok s2 => (.okSuccess, s2)
      | .error _ => (.unexpected, s)

/-- `DELETE /api/invoices/<int:invoice_number>` (`delete_invoice`). -/
def delete_invoice (s : DB) (u n : ℤ) : Resp × DB :=
  match findInvoice s u n with
  | none => (.notFound, s)
  | some inv =>
    let s1 := deleteCustomersAndItems s inv.id
    (.okSuccess, { s1 with invoices := s1.invoices.filter (fun r => !(r.id == inv.id)) })

/-! ## Categorization engine (`categorize`, src/app.py lines 517-547) -/

def isLeap (y : ℕ) : Bool := y % 4 == 0 && (y % 100 != 0 || y % 400 == 0)

def daysInMonth (y m : ℕ) : ℕ :=
  if m == 2 then (if isLeap y then 29 else 28)
  else if m == 4 || m == 6 || m == 9 || m == 11 then 30
  else 31

/-- One-or-two-digit field of `strptime`'s `%m` / `%d` patterns: a
two-digit match is taken when its value is in range, otherwise a single
nonzero digit (mirroring the regex alternation `1[0-2]|0[1-9]|[1-9]`
resp. `3[01]|[12]\d|0[1-9]|[1-9]`). -/
def parseMD (hi : ℕ) : List Char → Option (ℕ × List Char)
  | c1 :: c2 :: rest =>
    if c1.isDigit && c2.isDigit then
      let v := 10 * digitVal c1 + digitVal c2
      if 1 ≤ v && v ≤ hi then some (v, rest)
      else if 1 ≤ digitVal c1 && digitVal c1 ≤ 9 then some (digitVal c1, c2 :: rest)
      else none
    else if c1.isDigit && 1 ≤ digitVal c1 && digitVal c1 ≤ 9 then
      some (digitVal c1, c2 :: rest)
    else none
  | [c1] =>
    if c1.isDigit && 1 ≤ digitVal c1 && digitVal c1 ≤ 9 then some (digitVal c1, [])
    else none
  | [] => none

/-- `datetime.strptime(s, "%Y-%m-%d")`: exactly four digits of year,
one or two digits of month and day, the whole string consumed, and the
day checked against the calendar (`datetime` rejects e.g. Feb 30 and
year 0). -/
def parseYMD (s : String) : Option (ℕ × ℕ × ℕ) :=
  match s.data with
  | a :: b :: c :: d :: rest =>
    if a.isDigit && b.isDigit && c.isDigit && d.isDigit then
      let y := 1000 * digitVal a + 100 * digitVal b + 10 * digitVal c + digitVal d
      match rest with
      | '-' :: rest2 =>
        match parseMD 12 rest2 with
        | some mr =>
          match mr.2 with
          | '-' :: rest4 =>
            match parseMD 31 rest4 with
            | some dr =>
              match dr.2 with
              | [] => if 1 ≤ y && dr.1 ≤ daysInMonth y mr.1 then some (y, mr.1, dr.1) else none
              | _ => none
            | none => none
          | _ => none
        | none => none
      | _ => none
    else none
  | _ => none

/-- Bucket-key derivation of `categorize`: parse `creation_date`; on
failure keep the raw stored value as the key (a bare `except:`, so a
NULL date also falls through as the key); otherwise format per period,
with `month` the behaviour of every period other than `year`/`day`. -/
def dateKey (period : String) (cd : Option String) : Option String :=
  match cd with
  | none => none
  | some raw =>
    match parseYMD raw with
    | none => some raw
    | some ymd =>
      if period == "year" then some (toString ymd.1)
      else if period == "day" then
        some (toString ymd.1 ++ "-" ++ pad2 ymd.2.1 ++ "-" ++ pad2 ymd.2.2)
      else some (toString ymd.1 ++ "-" ++ pad2 ymd.2.1)

/-- `categorized.setdefault(key, []).append(inv)`: append to the bucket
of `k` if it exists, otherwise add a new bucket at the end (Python
dicts preserve insertion order). -/
def addToBucket {A : Type} : List (Option String × List A) → Option String → A →
    List (Option String × List A)
  | [], k, x => [(k, [x])]
  | (k0, l) :: rest, k, x =>
    if k0 = k then (k0, l ++ [x]) :: rest else (k0, l) :: addToBucket rest k x

/-- The invoice list stored under a bucket key (empty if absent). -/
def bucketOf {A : Type} : List (Option String × List A) → Option String → List A
  | [], _ => []
  | (k0, l) :: rest, k => if k0 = k then l else bucketOf rest k

/-- `SELECT name FROM customers WHERE invoice_id=%s` (the names-only
customer view attached by `categorize`). -/
def custNames (s : DB) (invId : ℤ) : List (Option String) :=
  (s.customers.filter (fun c => c.invoice_id == invId)).map (fun c => c.name)

/-- `GET /api/invoices/categorize` (`categorize`): group the user's
invoices (with attached customer names) into buckets keyed by
`dateKey`. -/
def categorize (s : DB) (u : ℤ) (period : String) :
    List (Option String × List (InvRow × List (Option String))) :=
  (s.invoices.filter (fun r => r.user_id == u)).foldl
    (fun bs inv => addToBucket bs (dateKey period inv.creation_date) (inv, custNames s inv.id))
    []

/-- The route-level default `request.args.get("period", "month")`. -/
def categorizeRoute (s : DB) (u : ℤ) (parg : Option String) :
    List (Option String × List (InvRow × List (Option String))) :=
  categorize s u (parg.getD "month")

/-! ## PDF renderer (`generate_pdf`, src/app.py lines 560-709)

The layout is modelled as the ordered list of the text arguments passed
to `pdf.cell` (dividers / blank lines carry no text and no data and are
omitted).  A `None` passed as a cell text (a NULL company name or item
description) makes fpdf raise, which the surrounding route turns into a
generic 500. -/

/-- An invoice aggregate as fetched for export: the header row plus the
customers, each with its items. -/
structure Agg where
  inv : InvRow
  custs : List (CustRow × List ItemRow)
deriving DecidableEq

/-- The fetch half of `generate_pdf` (also the FetchOne contract):
scoped `SELECT * FROM invoices WHERE invoice_number=%s AND user_id=%s`
plus the nested customer and item selects. -/
def fetchAgg (s : DB) (u n : ℤ) : Option Agg :=
  (findInvoice s u n).map (fun inv =>
    ⟨inv, (s.customers.filter (fun c => c.invoice_id == inv.id)).map
      (fun c => (c, s.items.filter (fun it => it.customer_id == c.id)))⟩)

/-- `desc[:42] + "..." if len(desc) > 45 else desc`. -/
def truncDesc (d : String) : String :=
  if d.length > 45 then d.take 42 ++ "..." else d

/-- `if invoice.get(field):` — a cell emitted only for a truthy value. -/
def optCell (v : Option String) : List String :=
  match v with
  | some s => if s.isEmpty then [] else [s]
  | none => []

/-- Python str() interpolation of a nullable text field inside an
f-string (`None` prints as "None"). -/
def pyShow (v : Option String) : String :=
  match v with
  | some s => s
  | none => "None"

/-- One row of the items table: truncated description, quantity, unit
price and line total `qty * unit_price`; the pair also carries the line
total for the running subtotal. -/
def renderItem (it : ItemRow) : Except Unit (List String × ℚ) :=
  match it.description with
  | none => .error ()
  | some d =>
    let t : ℚ := (it.quantity : ℚ) * it.unit_price
    .ok ([truncDesc d, toString it.quantity, "$" ++ fmt2 it.unit_price, "$" ++ fmt2 t], t)

/-- One customer block: the "Bill To" header, the truthy address/email
lines, and — when there are items — the table header, item rows and
the per-customer subtotal. -/
def renderCustomer (c : CustRow) (its : List ItemRow) : Except Unit (List String) :=
  let head := ("Bill To: " ++ pyShow c.name) :: (optCell c.address ++ optCell c.email)
  if its.isEmpty then .ok head
  else
    match its.mapM renderItem with
    | .error e => .error e
    | .ok pairs =>
      let cells := pairs.foldl (fun a p => a ++ p.1) []
      let subtotal := pairs.foldl (fun a p => a + p.2) 0
      .ok (head ++ ["Description", "Qty", "Unit Price", "Total"] ++ cells ++
           ["Subtotal:", "$" ++ fmt2 subtotal])

/-- The `for idx, cust in enumerate(...)` loop: the concatenated cell
traces of the customer blocks, in storage order. -/
def renderCustomers : List (CustRow × List ItemRow) → Except Unit (List String)
  | [] => .ok []
  | p :: rest =>
    match renderCustomer p.1 p.2 with
    | .error e => .error e
    | .ok block =>
      match renderCustomers rest with
      | .error e => .error e
      | .ok more => .ok (block ++ more)

/-- The full cell trace of `generate_pdf`'s layout: title band, issuer
block, customer blocks, grand-total band (the *stored* `total_amount`),
footer. -/
def render (a : Agg) : Except Unit (List String) :=
  match a.inv.company_name with
  | none => .error ()
  | some cn =>
    match renderCustomers a.custs with
    | .error e => .error e
    | .ok blocks =>
      .ok ((("INVOICE #" ++ toString a.inv.invoice_number) ::
            "From:" ::
            ("Date: " ++ pyShow a.inv.creation_date) ::
            cn :: (optCell a.inv.company_address ++ optCell a.inv.company_email))
           ++ blocks
           ++ ["TOTAL AMOUNT:", "$" ++ fmt2 a.inv.total_amount,
               "Thank you for your business!"])

/-- `GET /api/invoices/<int:invoice_number>/pdf` (`generate_pdf`):
scoped fetch (404 when absent), then the pure render; the route only
reads the store. -/
def generate_pdf (s : DB) (u n : ℤ) : Resp × DB :=
  match fetchAgg s u n with
  | none => (.notFound, s)
  | some a =>
    match render a with
    | .ok cells => (.pdfDoc cells, s)
    | .error _ => (.unexpected, s)

/-! ## Lemmas about the write loops -/

/-- A successful item loop processed every item without an exception. -/
theorem insertItemsLoop_ok (cid : ℤ) (its : List JVal) :
    ∀ (s s2 : DB), insertItemsLoop s cid its = .ok s2 →
      ∀ it ∈ its, ¬ processItem it = .error () := by
  induction its with
  | nil => intro s s2 _ it hit; simp at hit
  | cons a rest ih =>
    intro s s2 h it hit
    rw [insertItemsLoop] at h
    cases hp : processItem a with
    | error e => simp [hp] at h
    | ok dqp =>
      simp only [hp] at h
      rcases List.mem_cons.mp hit with rfl | h1
      · simp [hp]
      · exact ih _ _ h it h1

/-- A successful customer loop processed every item of every customer
without an exception. -/
theorem custLoop_ok (invId : ℤ) (cs : List JVal) :
    ∀ (s s2 : DB), custLoop s invId cs = .ok s2 →
      ∀ c ∈ cs, ∀ its, custItems c = .ok its →
        ∀ it ∈ its, ¬ processItem it = .error () := by
  induction cs with
  | nil => intro s s2 _ c hc; simp at hc
  | cons a rest ih =>
    intro s s2 h c hc its hits it hit
    rw [custLoop] at h
    cases hp : processCustomer a with
    | error e => simp [hp] at h
    | ok nae =>
      simp only [hp] at h
      cases hi : custItems a with
      | error e => simp [hi] at h
      | ok aits =>
        simp only [hi] at h
        cases hl : insertItemsLoop (insertCustomer s invId nae.1 nae.2.1 nae.2.2).2
            (insertCustomer s invId nae.1 nae.2.1 nae.2.2).1 aits with
        | error e => simp [hl] at h
        | ok s1 =>
          simp only [hl] at h
          rcases List.mem_cons.mp hc with rfl | h1
          · have he : aits = its := by rw [hi] at hits; exact (Except.ok.injEq _ _).mp hits
            subst he
            exact insertItemsLoop_ok _ _ _ _ hl it hit
          · exact ih _ _ h c h1 its hits it hit

/-- The item loop never touches the `invoices` table. -/
theorem insertItemsLoop_invoices (cid : ℤ) (its : List JVal) :
    ∀ (s s2 : DB), insertItemsLoop s cid its = .ok s2 → s2.invoices = s.invoices := by
  induction its with
  | nil => intro s s2 h; cases h; rfl
  | cons a rest ih =>
    intro s s2 h
    rw [insertItemsLoop] at h
    cases hp : processItem a with
    | error e => simp [hp] at h
    | ok dqp =>
      simp only [hp] at h
      rw [ih _ _ h]
      rfl

/-- The customer loop never touches the `invoices` table. -/
theorem custLoop_invoices (invId : ℤ) (cs : List JVal) :
    ∀ (s s2 : DB), custLoop s invId cs = .ok s2 → s2.invoices = s.invoices := by
  induction cs with
  | nil => intro s s2 h; cases h; rfl
  | cons a rest ih =>
    intro s s2 h
    rw [custLoop] at h
    cases hp : processCustomer a with
    | error e => simp [hp] at h
    | ok nae =>
      simp only [hp] at h
      cases hi : custItems a with
      | error e => simp [hi] at h
      | ok aits =>
        simp only [hi] at h
        cases hl : insertItemsLoop (insertCustomer s invId nae.1 nae.2.1 nae.2.2).2
            (insertCustomer s invId nae.1 nae.2.1 nae.2.2).1 aits with
        | error e => simp [hl] at h
        | ok s1 =>
          simp only [hl] at h
          rw [ih _ _ h, insertItemsLoop_invoices _ _ _ _ hl]
          rfl

/-- A request whose customer list is visible and nonempty cannot be a
falsy body (an empty dict has no `customers` key, and a non-dict body
fails the lookup). -/
theorem reqCustomers_nonempty_not_falsy (data : JVal) (cs : List JVal) (c : JVal)
    (h : reqCustomers data = .ok cs) (hc : c ∈ cs) : jFalsy data = false := by
  cases data with
  | obj kvs =>
    cases kvs with
    | nil =>
      exfalso
      simp [reqCustomers, jgetD, pyIter] at h
      subst h
      simp at hc
    | cons a l => rfl
  | null => simp [reqCustomers, jgetD] at h
  | jbool b => simp [reqCustomers, jgetD] at h
  | num q => simp [reqCustomers, jgetD] at h
  | jstr s => simp [reqCustomers, jgetD] at h
  | arr xs => simp [reqCustomers, jgetD] at h

/-- A dict that yields a truthy value for some key is itself truthy. -/
theorem jget_truthy_not_falsy (data : JVal) (k : String) (v : JVal)
    (h : jget data k = .ok v) (hv : jFalsy v = false) : jFalsy data = false := by
  cases data with
  | obj kvs =>
    cases kvs with
    | nil =>
      exfalso
      simp [jget] at h
      subst h
      simp [jFalsy] at hv
    | cons a l => rfl
  | null => simp [jget] at h
  | jbool b => simp [jget] at h
  | num q => simp [jget] at h
  | jstr s => simp [jget] at h
  | arr xs => simp [jget] at h

/-- Inversion of a successful `createBody`: the response is `201` with
the number that was either supplied (truthy) or produced by the
numbering policy (falsy/absent). -/
theorem createBody_ok_shape (s : DB) (u : ℤ) (data : JVal) (rs : Resp × DB)
    (hb : createBody s u data = .ok rs) :
    ∃ n s2, rs = (.created n, s2) ∧ createRest s u data n = .ok s2 ∧
      ∃ supplied, jget data "invoice_number" = .ok supplied ∧
        ((jFalsy supplied = true ∧ n = nextNumber s u) ∨
         (jFalsy supplied = false ∧ sqlInt supplied = .ok n)) := by
  rw [createBody] at hb
  cases hg : jget data "invoice_number" with
  | error e => simp [hg] at hb
  | ok supplied =>
    simp only [hg] at hb
    cases hf : jFalsy supplied with
    | true =>
      simp only [hf, if_pos] at hb
      cases hr : createRest s u data (nextNumber s u) with
      | error e => simp [hr] at hb
      | ok s2 =>
        simp only [hr] at hb
        exact ⟨nextNumber s u, s2, ((Except.ok.injEq _ _).mp hb).symm, hr, supplied, rfl,
          Or.inl ⟨hf, rfl⟩⟩
    | false =>
      simp only [hf, Bool.false_eq_true, if_false] at hb
      cases hsq : sqlInt supplied with
      | error e => simp [hsq] at hb
      | ok n =>
        simp only [hsq] at hb
        cases hr : createRest s u data n with
        | error e => simp [hr] at hb
        | ok s2 =>
          simp only [hr] at hb
          exact ⟨n, s2, ((Except.ok.injEq _ _).mp hb).symm, hr, supplied, rfl,
            Or.inr ⟨hf, hsq⟩⟩

/-- Inversion of a successful `createRest`: exactly one invoice header
row is appended, carrying the defaulted total parse. -/
theorem createRest_ok_shape (s : DB) (u : ℤ) (data : JVal) (n : ℤ) (s2 : DB)
    (h : createRest s u data n = .ok s2) :
    ∃ tv f, jgetD data "total_amount" (.num 0) = .ok tv ∧ headerFields data = .ok f ∧
      s2.invoices = s.invoices ++
        [mkInvRow s.nextInvoiceId n f.1 f.2.1 f.2.2.1 f.2.2.2 (defFloat tv) u] := by
  rw [createRest] at h
  cases h1 : jgetD data "total_amount" (.num 0) with
  | error e => simp [h1] at h
  | ok tv =>
    simp only [h1] at h
    cases h2 : headerFields data with
    | error e => simp [h2] at h
    | ok f =>
      simp only [h2] at h
      rw [insertInvoice] at h
      cases h3 : s.invoices.any (fun r => r.user_id == u && r.invoice_number == n) with
      | true => simp [h3] at h
      | false =>
        simp only [h3, Bool.false_eq_true, if_false] at h
        cases h4 : reqCustomers data with
        | error e => simp [h4] at h
        | ok cs =>
          simp only [h4] at h
          refine ⟨tv, f, rfl, rfl, ?_⟩
          rw [custLoop_invoices _ _ _ _ h]

/-- A request containing an item that fails processing can never make
`createRest` succeed. -/
theorem createRest_bad_item (s : DB) (u : ℤ) (data : JVal) (n : ℤ)
    (cs its : List JVal) (c it : JVal)
    (hcs : reqCustomers data = .ok cs) (hc : c ∈ cs)
    (hits : custItems c = .ok its) (hit : it ∈ its)
    (hbad : processItem it = .error ()) :
    ∀ s2, ¬ createRest s u data n = .ok s2 := by
  intro s2 h
  rw [createRest] at h
  cases h1 : jgetD data "total_amount" (.num 0) with
  | error e => simp [h1] at h
  | ok tv =>
    simp only [h1] at h
    cases h2 : headerFields data with
    | error e => simp [h2] at h
    | ok f =>
      simp only [h2] at h
      cases h3 : insertInvoice s u n f.1 f.2.1 f.2.2.1 f.2.2.2 (defFloat tv) with
      | error e => simp [h3] at h
      | ok is1 =>
        simp only [h3] at h
        simp only [hcs] at h
        exact custLoop_ok _ _ _ _ h c hc its hits it hit hbad

/-- Likewise for the body of `modify_invoice`. -/
theorem modifyBody_bad_item (s : DB) (invId : ℤ) (data : JVal)
    (cs its : List JVal) (c it : JVal)
    (hcs : reqCustomers data = .ok cs) (hc : c ∈ cs)
    (hits : custItems c = .ok its) (hit : it ∈ its)
    (hbad : processItem it = .error ()) :
    ∀ s2, ¬ modifyBody s invId data = .ok s2 := by
  intro s2 h
  rw [modifyBody] at h
  cases h1 : jgetD data "total_amount" (.num 0) with
  | error e => simp [h1] at h
  | ok tv =>
    simp only [h1] at h
    cases h2 : pyFloat tv with
    | error e => simp [h2] at h
    | ok total =>
      simp only [h2] at h
      cases h3 : headerFields data with
      | error e => simp [h3] at h
      | ok f =>
        simp only [h3] at h
        simp only [hcs] at h
        exact custLoop_ok _ _ _ _ h c hc its hits it hit hbad

/-! ## Lemmas about bucketing -/

theorem bucketOf_add_same {A : Type} (bs : List (Option String × List A))
    (k : Option String) (x : A) :
    bucketOf (addToBucket bs k x) k = bucketOf bs k ++ [x] := by
  induction bs with
  | nil => simp [addToBucket, bucketOf]
  | cons hd rest ih =>
    obtain ⟨k0, l⟩ := hd
    by_cases hk : k0 = k
    · subst hk; simp [addToBucket, bucketOf]
    · simp [addToBucket, bucketOf, hk, ih]

theorem bucketOf_add_ne {A : Type} (bs : List (Option String × List A))
    (k k1 : Option String) (x : A) (h : k1 ≠ k) :
    bucketOf (addToBucket bs k x) k1 = bucketOf bs k1 := by
  induction bs with
  | nil => simp [addToBucket, bucketOf, Ne.symm h]
  | cons hd rest ih =>
    obtain ⟨k0, l⟩ := hd
    by_cases hk : k0 = k
    · subst hk
      have : ¬ k0 = k1 := fun he => h (he ▸ rfl)
      simp [addToBucket, bucketOf, this]
    · by_cases hk1 : k0 = k1
      · subst hk1; simp [addToBucket, bucketOf, hk]
      · simp [addToBucket, bucketOf, hk, hk1, ih]

/-- Folding `addToBucket` over a list places (and keeps) each element
in the bucket of its key. -/
theorem foldl_addToBucket_mem {A B : Type} (key : A → Option String) (val : A → B) :
    ∀ (l : List A) (bs : List (Option String × List B)) (x : A),
      (x ∈ l ∨ val x ∈ bucketOf bs (key x)) →
      val x ∈ bucketOf (l.foldl (fun b y => addToBucket b (key y) (val y)) bs) (key x) := by
  intro l
  induction l with
  | nil =>
    intro bs x h
    rcases h with h | h
    · simp at h
    · simpa using h
  | cons a rest ih =>
    intro bs x h
    simp only [List.foldl_cons]
    apply ih
    rcases h with h | h
    · rcases List.mem_cons.mp h with rfl | h2
      · right
        rw [bucketOf_add_same]
        exact List.mem_append_right _ (List.mem_singleton.mpr rfl)
      · left; exact h2
    · right
      by_cases hk : key a = key x
      · rw [← hk] at h ⊢
        rw [bucketOf_add_same]
        exact List.mem_append_left _ h
      · rw [bucketOf_add_ne _ _ _ _ (fun he => hk he.symm)]
        exact h

/-! ## Claim C1 -/

/-- C1: for every user `u` and invoice number `n`, Replace, Delete and
FetchOne/PDF-export answer NotFound (404, body "Invoice not found")
whenever no invoice with `(user_id = u, invoice_number = n)` exists —
in particular when the number exists under a different owner — and the
store is untouched; no forbidden-style response exists and no other
user's data is returned. -/
theorem C1_scoped_not_found (s : DB) (u n : ℤ)
    (h : ∀ r ∈ s.invoices, ¬ (r.user_id = u ∧ r.invoice_number = n))
    (data : JVal) (hd : jFalsy data = false) :
    modify_invoice s u n data = (.notFound, s) ∧
    delete_invoice s u n = (.notFound, s) ∧
    generate_pdf s u n = (.notFound, s) := by
  have hf : findInvoice s u n = none := by
    rw [findInvoice, List.find?_eq_none]
    intro r hr
    simp only [Bool.and_eq_true, beq_iff_eq, not_and]
    intro h1 h2
    exact h r hr ⟨h2, h1⟩
  refine ⟨?_, ?_, ?_⟩
  · simp [modify_invoice, hd, hf]
  · simp [delete_invoice, hf]
  · simp [generate_pdf, fetchAgg, hf]

def c1db : DB :=
  ⟨[⟨1, 1000, some "2024-01-05", some "B Corp", none, none, 50, 2⟩], [], [], 2, 1, 1⟩

def c1req : JVal := .obj [("company_name", .jstr "A")]

/-- C1 witness: invoice number 1000 exists but belongs to user 2; user
1's Replace/Delete/PDF requests for it all get 404, not the data. -/
theorem C1_scoped_not_found_witness :
    modify_invoice c1db 1 1000 c1req = (.notFound, c1db) ∧
    delete_invoice c1db 1 1000 = (.notFound, c1db) ∧
    generate_pdf c1db 1 1000 = (.notFound, c1db) :=
  C1_scoped_not_found c1db 1 1000 (by decide) c1req (by decide)

/-! ## Claim C2 -/

/-- C2: a Create or Replace request containing an item entry that fails
during processing leaves the store exactly as it was (no header,
customer or item row of the request survives; for Replace the prior
aggregate is intact), and the operation does not report success. -/
theorem C2_atomic_failed_write (s : DB) (u n : ℤ) (data : JVal)
    (cs its : List JVal) (c it : JVal)
    (hcs : reqCustomers data = .ok cs) (hc : c ∈ cs)
    (hits : custItems c = .ok its) (hit : it ∈ its)
    (hbad : processItem it = .error ()) :
    create_invoice s u data = (.createFailed, s) ∧
    (modify_invoice s u n data).2 = s ∧
    (modify_invoice s u n data).1 ≠ .okSuccess := by
  have hnf := reqCustomers_nonempty_not_falsy data cs c hcs hc
  refine ⟨?_, ?_⟩
  · simp only [create_invoice, hnf, Bool.false_eq_true, if_false]
    cases hb : createBody s u data with
    | error e => rfl
    | ok rs =>
      exfalso
      obtain ⟨n2, s2, _, hrest, _⟩ := createBody_ok_shape s u data rs hb
      exact createRest_bad_item s u data n2 cs its c it hcs hc hits hit hbad s2 hrest
  · simp only [modify_invoice, hnf, Bool.false_eq_true, if_false]
    cases hfind : findInvoice s u n with
    | none => exact ⟨rfl, by simp⟩
    | some inv =>
      cases hmb : modifyBody s inv.id data with
      | error e => simp [hmb]
      | ok s2 =>
        exact absurd hmb (modifyBody_bad_item s inv.id data cs its c it hcs hc hits hit hbad s2)

def c2db : DB :=
  ⟨[⟨1, 1000, some "2024-01-05", some "Old Co", none, none, 10, 1⟩],
   [⟨1, 1, some "Old Cust", none, none⟩],
   [⟨1, 1, some "Old Item", 1, 10⟩], 2, 2, 2⟩

def c2item : JVal := .obj [("description", .jstr "W"), ("quantity", .jstr "x")]

def c2cust : JVal := .obj [("name", .jstr "C"), ("items", .arr [c2item])]

def c2req : JVal := .obj [("company_name", .jstr "New Co"), ("customers", .arr [c2cust])]

/-- C2 witness: a request whose single item has the unparseable
quantity "x" leaves the pre-existing aggregate untouched under both
Create and Replace. -/
theorem C2_atomic_failed_write_witness :
    create_invoice c2db 1 c2req = (.createFailed, c2db) ∧
    (modify_invoice c2db 1 1000 c2req).2 = c2db ∧
    (modify_invoice c2db 1 1000 c2req).1 ≠ .okSuccess :=
  C2_atomic_failed_write c2db 1 1000 c2req [c2cust] [c2item] c2cust c2item
    rfl (List.mem_singleton.mpr rfl) rfl (List.mem_singleton.mpr rfl) rfl

/-- A successful `createRest` implies the uniqueness check found no
collision for `(user_id, invoice_number)`. -/
theorem createRest_ok_no_collision (s : DB) (u : ℤ) (data : JVal) (n : ℤ) (s2 : DB)
    (h : createRest s u data n = .ok s2) :
    s.invoices.any (fun r => r.user_id == u && r.invoice_number == n) = false := by
  rw [createRest] at h
  cases h1 : jgetD data "total_amount" (.num 0) with
  | error e => simp [h1] at h
  | ok tv =>
    simp only [h1] at h
    cases h2 : headerFields data with
    | error e => simp [h2] at h
    | ok f =>
      simp only [h2] at h
      rw [insertInvoice] at h
      cases h3 : s.invoices.any (fun r => r.user_id == u && r.invoice_number == n) with
      | true => simp [h3] at h
      | false => rfl

/-- A value on which `float` raises is defaulted to 0 by the guarded
parse of `create_invoice`. -/
theorem defFloat_error (v : JVal) (h : pyFloat v = .error ()) : defFloat v = 0 := by
  unfold defFloat
  rw [h]

/-- An item dict whose `unit_price` value makes `float` raise makes the
whole item-processing step raise. -/
theorem processItem_bad_price (it pv : JVal)
    (hp : jgetD it "unit_price" (.num 0) = .ok pv) (hbad : pyFloat pv = .error ()) :
    processItem it = .error () := by
  cases hpi : processItem it with
  | error e => rfl
  | ok z =>
    exfalso
    rw [processItem] at hpi
    cases h1 : jget it "description" with
    | error e => simp [h1] at hpi
    | ok dv =>
      simp only [h1] at hpi
      cases h2 : sqlText dv with
      | error e => simp [h2] at hpi
      | ok d =>
        simp only [h2] at hpi
        cases h3 : jgetD it "quantity" (.num 1) with
        | error e => simp [h3] at hpi
        | ok qv =>
          simp only [h3] at hpi
          cases h4 : pyInt qv with
          | error e => simp [h4] at hpi
          | ok q => simp [h4, hp, hbad] at hpi

/-- An item dict whose `quantity` value makes `int` raise makes the
whole item-processing step raise. -/
theorem processItem_bad_quantity (it qv : JVal)
    (hq : jgetD it "quantity" (.num 1) = .ok qv) (hbad : pyInt qv = .error ()) :
    processItem it = .error () := by
  cases hpi : processItem it with
  | error e => rfl
  | ok z =>
    exfalso
    rw [processItem] at hpi
    cases h1 : jget it "description" with
    | error e => simp [h1] at hpi
    | ok dv =>
      simp only [h1] at hpi
      cases h2 : sqlText dv with
      | error e => simp [h2] at hpi
      | ok d =>
        simp only [h2] at hpi
        simp [hq, hbad] at hpi

/-! ## Claim C3 -/

def emptyDB : DB := ⟨[], [], [], 1, 1, 1⟩

def c3item : JVal := .obj [("description", .jstr "W"), ("unit_price", .jstr "abc")]

def c3req : JVal := .obj [("company_name", .jstr "Acme"),
  ("customers", .arr [.obj [("name", .jstr "C"), ("items", .arr [c3item])]])]

/-- C3 counterexample: a Create whose item has the unparseable
unit_price "abc" does *not* succeed with the price defaulted to 0 — it
fails with the generic 500 and writes nothing. -/
theorem C3_counterexample :
    pyFloat (JVal.jstr "abc") = .error () ∧
    create_invoice emptyDB 1 c3req = (.createFailed, emptyDB) ∧
    (create_invoice emptyDB 1 c3req).1.status = 500 :=
  ⟨rfl, rfl, rfl⟩

/-- C3 amended: only the top-level total_amount of *Create* is
defaulted to 0 on parse failure (the new header row carries total 0);
an unparseable item unit_price (Create or Replace) and an unparseable
total_amount of *Replace* instead abort the whole request with a
generic 500 and leave the store unchanged. -/
theorem C3_coercion_boundaries :
    (∀ (s : DB) (u : ℤ) (data v : JVal) (m : ℤ) (s2 : DB),
        jgetD data "total_amount" (.num 0) = .ok v → pyFloat v = .error () →
        create_invoice s u data = (.created m, s2) →
        ∃ f : Option String × Option String × Option String × Option String,
          s2.invoices = s.invoices ++
            [mkInvRow s.nextInvoiceId m f.1 f.2.1 f.2.2.1 f.2.2.2 0 u]) ∧
    (∀ (s : DB) (u : ℤ) (data : JVal) (cs its : List JVal) (c it pv : JVal),
        reqCustomers data = .ok cs → c ∈ cs → custItems c = .ok its → it ∈ its →
        jgetD it "unit_price" (.num 0) = .ok pv → pyFloat pv = .error () →
        create_invoice s u data = (.createFailed, s)) ∧
    (∀ (s : DB) (u n : ℤ) (data v : JVal) (inv : InvRow),
        findInvoice s u n = some inv → jFalsy data = false →
        jgetD data "total_amount" (.num 0) = .ok v → pyFloat v = .error () →
        modify_invoice s u n data = (.unexpected, s)) ∧
    (∀ (s : DB) (u n : ℤ) (data : JVal) (cs its : List JVal) (c it pv : JVal),
        reqCustomers data = .ok cs → c ∈ cs → custItems c = .ok its → it ∈ its →
        jgetD it "unit_price" (.num 0) = .ok pv → pyFloat pv = .error () →
        (modify_invoice s u n data).2 = s ∧
        (modify_invoice s u n data).1 ≠ .okSuccess) := by
  refine ⟨?_, ?_, ?_, ?_⟩
  · intro s u data v m s2 hv hbad hc
    cases hnf : jFalsy data with
    | true => simp [create_invoice, hnf] at hc
    | false =>
      simp only [create_invoice, hnf, Bool.false_eq_true, if_false] at hc
      cases hb : createBody s u data with
      | error e => simp [hb] at hc
      | ok rs =>
        simp only [hb] at hc
        obtain ⟨n2, s3, hrs, hrest, _⟩ := createBody_ok_shape s u data rs hb
        rw [hrs] at hc
        have hm : n2 = m := by
          have h1 := congrArg Prod.fst hc
          simpa using h1
        have hs2 : s3 = s2 := congrArg Prod.snd hc
        obtain ⟨tv, f, htv, _, hshape⟩ := createRest_ok_shape s u data n2 s3 hrest
        have htveq : tv = v := by
          rw [hv] at htv
          exact ((Except.ok.injEq _ _).mp htv).symm
        subst htveq hm hs2
        refine ⟨f, ?_⟩
        rw [hshape, defFloat_error tv hbad]
  · intro s u data cs its c it pv hcs hc hits hit hp hbad
    have hbaditem := processItem_bad_price it pv hp hbad
    have hnf := reqCustomers_nonempty_not_falsy data cs c hcs hc
    simp only [create_invoice, hnf, Bool.false_eq_true, if_false]
    cases hb : createBody s u data with
    | error e => rfl
    | ok rs =>
      exfalso
      obtain ⟨n2, s3, _, hrest, _⟩ := createBody_ok_shape s u data rs hb
      exact createRest_bad_item s u data n2 cs its c it hcs hc hits hit hbaditem s3 hrest
  · intro s u n data v inv hfind hd hv hbad
    have hmb : modifyBody s inv.id data = .error () := by
      rw [modifyBody]
      simp only [hv, hbad]
    simp [modify_invoice, hd, hfind, hmb]
  · intro s u n data cs its c it pv hcs hc hits hit hp hbad
    have hbaditem := processItem_bad_price it pv hp hbad
    have hnf := reqCustomers_nonempty_not_falsy data cs c hcs hc
    simp only [modify_invoice, hnf, Bool.false_eq_true, if_false]
    cases hfind : findInvoice s u n with
    | none => exact ⟨rfl, by simp⟩
    | some inv =>
      cases hmb : modifyBody s inv.id data with
      | error e => simp [hmb]
      | ok s2 =>
        exact absurd hmb
          (modifyBody_bad_item s inv.id data cs its c it hcs hc hits hit hbaditem s2)

def c3wdb : DB := ⟨[], [], [], 5, 1, 1⟩

def c3wreq : JVal := .obj [("company_name", .jstr "Acme"), ("total_amount", .jstr "oops")]

def c3mdb : DB :=
  ⟨[⟨7, 1200, some "2024-03-01", some "A", none, none, 33, 4⟩], [], [], 8, 1, 1⟩

def c3mreq : JVal := .obj [("company_name", .jstr "B"), ("total_amount", .jstr "oops")]

/-- C3 witness: (a) Create with total_amount "oops" succeeds and stores
total 0; (b) Create with an item priced "abc" fails and changes
nothing; (c) Replace with total_amount "oops" fails with the generic
500 and changes nothing; (d) Replace with an item priced "abc" leaves
the store unchanged and does not report success. -/
theorem C3_coercion_boundaries_witness :
    (∃ f : Option String × Option String × Option String × Option String,
        ((create_invoice c3wdb 9 c3wreq).2).invoices = c3wdb.invoices ++
          [mkInvRow c3wdb.nextInvoiceId 1000 f.1 f.2.1 f.2.2.1 f.2.2.2 0 9]) ∧
    create_invoice emptyDB 2 c3req = (.createFailed, emptyDB) ∧
    modify_invoice c3mdb 4 1200 c3mreq = (.unexpected, c3mdb) ∧
    (modify_invoice c3mdb 4 1200 c3req).2 = c3mdb ∧
    (modify_invoice c3mdb 4 1200 c3req).1 ≠ .okSuccess :=
  ⟨C3_coercion_boundaries.1 c3wdb 9 c3wreq (.jstr "oops") 1000
      (create_invoice c3wdb 9 c3wreq).2 rfl rfl rfl,
   C3_coercion_boundaries.2.1 emptyDB 2 c3req [.obj [("name", .jstr "C"),
      ("items", .arr [c3item])]] [c3item] (.obj [("name", .jstr "C"),
      ("items", .arr [c3item])]) c3item (.jstr "abc") rfl
      (List.mem_singleton.mpr rfl) rfl (List.mem_singleton.mpr rfl) rfl rfl,
   C3_coercion_boundaries.2.2.1 c3mdb 4 1200 c3mreq (.jstr "oops")
      ⟨7, 1200, some "2024-03-01", some "A", none, none, 33, 4⟩ rfl rfl rfl rfl,
   (C3_coercion_boundaries.2.2.2 c3mdb 4 1200 c3req [.obj [("name", .jstr "C"),
      ("items", .arr [c3item])]] [c3item] (.obj [("name", .jstr "C"),
      ("items", .arr [c3item])]) c3item (.jstr "abc") rfl
      (List.mem_singleton.mpr rfl) rfl (List.mem_singleton.mpr rfl) rfl rfl).1,
   (C3_coercion_boundaries.2.2.2 c3mdb 4 1200 c3req [.obj [("name", .jstr "C"),
      ("items", .arr [c3item])]] [c3item] (.obj [("name", .jstr "C"),
      ("items", .arr [c3item])]) c3item (.jstr "abc") rfl
      (List.mem_singleton.mpr rfl) rfl (List.mem_singleton.mpr rfl) rfl rfl).2⟩

/-! ## Claim C4 -/

def c4db : DB :=
  ⟨[⟨1, 1000, some "2024-01-05", some "Acme", none, none, 50, 1⟩], [], [], 2, 1, 1⟩

def c4req : JVal := .obj [("invoice_number", .num 1000), ("company_name", .jstr "X")]

/-- C4 counterexample: Create colliding with the caller's own existing
invoice number 1000 fails, but with the generic 500 "Failed to create
invoice" — not a distinct Conflict (409/400) status. -/
theorem C4_counterexample :
    create_invoice c4db 1 c4req = (.createFailed, c4db) ∧
    (create_invoice c4db 1 c4req).1.status = 500 ∧
    ¬ (create_invoice c4db 1 c4req).1.status = 409 ∧
    ¬ (create_invoice c4db 1 c4req).1.status = 400 :=
  ⟨rfl, rfl, by decide, by decide⟩

/-- C4 amended: a Create supplying an invoice number that already
exists for the same user fails — the composite uniqueness constraint
aborts the INSERT and the handler rolls back, answering the generic 500
— and the store (hence the existing invoice) is unchanged; the failure
is not surfaced as a distinct Conflict status. -/
theorem C4_duplicate_rejected (s : DB) (u : ℤ) (data v : JVal) (n : ℤ)
    (hv : jget data "invoice_number" = .ok v) (ht : jFalsy v = false)
    (hn : sqlInt v = .ok n)
    (hex : ∃ r ∈ s.invoices, r.user_id = u ∧ r.invoice_number = n) :
    create_invoice s u data = (.createFailed, s) ∧
    (create_invoice s u data).1.status = 500 := by
  have hnf := jget_truthy_not_falsy data "invoice_number" v hv ht
  have hcol : s.invoices.any (fun r => r.user_id == u && r.invoice_number == n) = true := by
    rw [List.any_eq_true]
    obtain ⟨r, hr, h1, h2⟩ := hex
    exact ⟨r, hr, by simp [h1, h2]⟩
  have hmain : create_invoice s u data = (.createFailed, s) := by
    simp only [create_invoice, hnf, Bool.false_eq_true, if_false]
    cases hb : createBody s u data with
    | error e => rfl
    | ok rs =>
      exfalso
      obtain ⟨n2, s3, _, hrest, supplied, hsup, hch⟩ := createBody_ok_shape s u data rs hb
      have hsv : supplied = v := by
        rw [hv] at hsup
        exact ((Except.ok.injEq _ _).mp hsup).symm
      subst hsv
      rcases hch with ⟨hfal, _⟩ | ⟨_, hsq⟩
      · rw [ht] at hfal
        cases hfal
      · have hne : n2 = n := by
          rw [hn] at hsq
          exact ((Except.ok.injEq _ _).mp hsq).symm
        rw [hne] at hrest
        rw [createRest_ok_no_collision s u data n s3 hrest] at hcol
        cases hcol
  refine ⟨hmain, ?_⟩
  rw [hmain]
  rfl

def c4wdb : DB :=
  ⟨[⟨3, 2000, some "2024-02-02", some "Z Co", none, none, 5, 7⟩], [], [], 4, 1, 1⟩

def c4wreq : JVal := .obj [("invoice_number", .num 2000), ("company_name", .jstr "Z Co")]

/-- C4 witness: user 7 re-creating their number 2000 gets the 500
rejection and the store is unchanged. -/
theorem C4_duplicate_rejected_witness :
    create_invoice c4wdb 7 c4wreq = (.createFailed, c4wdb) ∧
    (create_invoice c4wdb 7 c4wreq).1.status = 500 :=
  C4_duplicate_rejected c4wdb 7 c4wreq (.num 2000) 2000 rfl (by decide) rfl
    ⟨⟨3, 2000, some "2024-02-02", some "Z Co", none, none, 5, 7⟩, by decide, by decide, by decide⟩

/-! ## Claim C5 -/

/-- Shared helper: when the supplied invoice number is falsy (absent,
null, 0, "" …), a successful Create reports exactly the number chosen
by the numbering policy. -/
theorem create_falsy_uses_policy (s : DB) (u : ℤ) (data v : JVal) (m : ℤ) (s2 : DB)
    (hv : jget data "invoice_number" = .ok v) (hfal : jFalsy v = true)
    (hc : create_invoice s u data = (.created m, s2)) : m = nextNumber s u := by
  cases hnf : jFalsy data with
  | true => simp [create_invoice, hnf] at hc
  | false =>
    simp only [create_invoice, hnf, Bool.false_eq_true, if_false] at hc
    cases hb : createBody s u data with
    | error e => simp [hb] at hc
    | ok rs =>
      simp only [hb] at hc
      obtain ⟨n2, s3, hrs, _, supplied, hsup, hch⟩ := createBody_ok_shape s u data rs hb
      rw [hrs] at hc
      have hnm : n2 = m := by
        have h1 := congrArg Prod.fst hc
        simpa using h1
      subst hnm
      have hsv : supplied = v := by
        rw [hv] at hsup
        exact ((Except.ok.injEq _ _).mp hsup).symm
      subst hsv
      rcases hch with ⟨_, hpol⟩ | ⟨hnfal, _⟩
      · exact hpol
      · rw [hfal] at hnfal
        cases hnfal

def c5db : DB :=
  ⟨[⟨1, 0, some "2024-01-01", some "A", none, none, 0, 1⟩], [], [], 2, 1, 1⟩

def c5req : JVal := .obj [("company_name", .jstr "A")]

/-- C5 counterexample: a (reachable) store where user 1's maximum
invoice number is 0 makes the policy hand out 1000, not max + 1 = 1:
the truthiness test `if result and result["mx"]` conflates 0 with the
no-invoices case. -/
theorem C5_counterexample :
    userMax c5db 1 = some 0 ∧
    nextNumber c5db 1 = 1000 ∧
    (create_invoice c5db 1 c5req).1 = .created 1000 ∧
    ¬ nextNumber c5db 1 = 0 + 1 :=
  ⟨rfl, rfl, rfl, by decide⟩

/-- C5 amended: a Create without an invoice number is assigned exactly
`nextNumber`; the policy yields 1000 for a user with no invoices, and
max + 1 whenever the user's maximum `max` is nonzero — but when
`max = 0` it yields 1000 again (the SQL-NULL truthiness check cannot
tell 0 from "no invoices"). -/
theorem C5_numbering_policy (s : DB) (u : ℤ) (data v : JVal)
    (hv : jget data "invoice_number" = .ok v) (hfal : jFalsy v = true) :
    (∀ (m : ℤ) (s2 : DB), create_invoice s u data = (.created m, s2) → m = nextNumber s u) ∧
    (userMax s u = none → nextNumber s u = 1000) ∧
    (∀ m : ℤ, userMax s u = some m → m ≠ 0 → nextNumber s u = m + 1) ∧
    (userMax s u = some 0 → nextNumber s u = 1000) := by
  refine ⟨?_, ?_, ?_, ?_⟩
  · intro m s2 hc
    exact create_falsy_uses_policy s u data v m s2 hv hfal hc
  · intro h
    rw [nextNumber, h]
    decide
  · intro m h hm
    rw [nextNumber, h]
    simp [hm]
  · intro h
    rw [nextNumber, h]
    decide

def c5wdb : DB :=
  ⟨[⟨1, 1050, some "2024-01-01", some "A", none, none, 0, 3⟩], [], [], 2, 1, 1⟩

def c5wreq : JVal := .obj [("company_name", .jstr "A")]

/-- C5 witness: a user with max 1050 gets 1051; a user with no invoices
gets 1000; and the concrete auto-numbered Create reports 1051. -/
theorem C5_numbering_policy_witness :
    nextNumber c5wdb 3 = 1050 + 1 ∧
    nextNumber c5wdb 9 = 1000 ∧
    (create_invoice c5wdb 3 c5wreq).1 = .created (nextNumber c5wdb 3) :=
  ⟨(C5_numbering_policy c5wdb 3 c5wreq .null rfl rfl).2.2.1 1050 rfl (by decide),
   (C5_numbering_policy c5wdb 9 c5wreq .null rfl rfl).2.1 rfl,
   (C5_numbering_policy c5wdb 3 c5wreq .null rfl rfl).1 1051
      (create_invoice c5wdb 3 c5wreq).2 rfl ▸ rfl⟩

/-! ## Claim C6 -/

theorem dateKey_parsed (cd : String) (y m d : ℕ) (h : parseYMD cd = some (y, m, d)) :
    dateKey "day" (some cd) = some (toString y ++ "-" ++ pad2 m ++ "-" ++ pad2 d) ∧
    dateKey "month" (some cd) = some (toString y ++ "-" ++ pad2 m) ∧
    dateKey "year" (some cd) = some (toString y) := by
  refine ⟨?_, ?_, ?_⟩ <;> (rw [dateKey]; simp only [h]; rfl)

theorem dateKey_raw (cd : String) (period : String) (h : parseYMD cd = none) :
    dateKey period (some cd) = some cd := by
  rw [dateKey]
  simp only [h]

/-- Membership form of `categorize`: each of the user's invoices lands
in the bucket of its date key. -/
theorem categorize_mem (s : DB) (u : ℤ) (period : String) (inv : InvRow)
    (hinv : inv ∈ s.invoices) (hu : inv.user_id = u) :
    (inv, custNames s inv.id) ∈
      bucketOf (categorize s u period) (dateKey period inv.creation_date) := by
  rw [categorize]
  exact foldl_addToBucket_mem (fun r => dateKey period r.creation_date)
    (fun r => (r, custNames s r.id)) (s.invoices.filter (fun r => r.user_id == u)) [] inv
    (Or.inl (List.mem_filter.mpr ⟨hinv, by simp [hu]⟩))

/-- C6: an invoice whose creation_date parses as a calendar date is
bucketed under `YYYY-MM-DD` / `YYYY-MM` / `YYYY` for period day / month
(the route default) / year respectively; an invoice whose date fails to
parse is still bucketed — under the raw stored string — for every
period. -/
theorem C6_categorize_buckets (s : DB) (u : ℤ) (inv : InvRow) (cd : String)
    (hinv : inv ∈ s.invoices) (hu : inv.user_id = u) (hcd : inv.creation_date = some cd) :
    (∀ y m d : ℕ, parseYMD cd = some (y, m, d) →
      (inv, custNames s inv.id) ∈ bucketOf (categorize s u "day")
          (some (toString y ++ "-" ++ pad2 m ++ "-" ++ pad2 d)) ∧
      (inv, custNames s inv.id) ∈ bucketOf (categorize s u "month")
          (some (toString y ++ "-" ++ pad2 m)) ∧
      (inv, custNames s inv.id) ∈ bucketOf (categorize s u "year")
          (some (toString y))) ∧
    (parseYMD cd = none → ∀ period : String,
      (inv, custNames s inv.id) ∈ bucketOf (categorize s u period) (some cd)) ∧
    categorizeRoute s u none = categorize s u "month" := by
  refine ⟨?_, ?_, rfl⟩
  · intro y m d hp
    obtain ⟨hd, hm, hy⟩ := dateKey_parsed cd y m d hp
    refine ⟨?_, ?_, ?_⟩
    · have := categorize_mem s u "day" inv hinv hu
      rw [hcd, hd] at this
      exact this
    · have := categorize_mem s u "month" inv hinv hu
      rw [hcd, hm] at this
      exact this
    · have := categorize_mem s u "year" inv hinv hu
      rw [hcd, hy] at this
      exact this
  · intro hp period
    have := categorize_mem s u period inv hinv hu
    rw [hcd, dateKey_raw cd period hp] at this
    exact this

def c6row : InvRow := ⟨1, 1000, some "2024-01-05", some "A", none, none, 10, 1⟩

def c6rowBad : InvRow := ⟨2, 1001, some "junk", some "A", none, none, 10, 1⟩

def c6db : DB := ⟨[c6row, c6rowBad], [⟨1, 1, some "Cust", none, none⟩], [], 3, 2, 1⟩

/-- C6 witness: the invoice dated 2024-01-05 appears under "2024-01-05"
(day), "2024-01" (month) and "2024" (year); the invoice dated "junk"
appears under the raw key "junk". -/
theorem C6_categorize_buckets_witness :
    (c6row, [some "Cust"]) ∈ bucketOf (categorize c6db 1 "day") (some "2024-01-05") ∧
    (c6row, [some "Cust"]) ∈ bucketOf (categorize c6db 1 "month") (some "2024-01") ∧
    (c6row, [some "Cust"]) ∈ bucketOf (categorize c6db 1 "year") (some "2024") ∧
    (c6rowBad, []) ∈ bucketOf (categorize c6db 1 "month") (some "junk") := by
  have h1 := (C6_categorize_buckets c6db 1 c6row "2024-01-05"
    (by simp [c6db, c6row]) rfl rfl).1 2024 1 5 rfl
  have h2 := (C6_categorize_buckets c6db 1 c6rowBad "junk"
    (by simp [c6db, c6rowBad]) rfl rfl).2.1 rfl "month"
  exact ⟨h1.1, h1.2.1, h1.2.2, h2⟩

/-! ## Claim C7 -/

/-- C7: the grand-total band of the rendered PDF is the *stored*
`total_amount` formatted to 2 decimals (followed only by the footer),
for every aggregate — in particular it is not recomputed from the line
items, whatever they sum to. -/
theorem C7_pdf_stored_total (s : DB) (u n : ℤ) (a : Agg) (cells : List String)
    (hf : fetchAgg s u n = some a) (hr : render a = .ok cells) :
    generate_pdf s u n = (.pdfDoc cells, s) ∧
    ∃ pre, cells = pre ++ ["TOTAL AMOUNT:", "$" ++ fmt2 a.inv.total_amount,
      "Thank you for your business!"] := by
  refine ⟨by simp [generate_pdf, hf, hr], ?_⟩
  rw [render] at hr
  cases h1 : a.inv.company_name with
  | none => simp [h1] at hr
  | some cn =>
    simp only [h1] at hr
    cases h2 : renderCustomers a.custs with
    | error e => simp [h2] at hr
    | ok blocks =>
      simp only [h2] at hr
      exact ⟨_, ((Except.ok.injEq _ _).mp hr).symm⟩

/-- 99.99 as a raw reduced fraction (whose numerator and denominator
evaluate definitionally). -/
def q9999c : ℚ := ⟨9999, 100, by decide, by decide⟩

def c7row : InvRow := ⟨1, 1000, some "2024-01-05", some "Acme", none, none, q9999c, 1⟩

def c7db : DB :=
  ⟨[c7row], [⟨1, 1, some "Cust", none, none⟩], [⟨1, 1, some "Widget", 2, 10⟩], 2, 2, 2⟩

def c7agg : Agg := ⟨c7row, [(⟨1, 1, some "Cust", none, none⟩, [⟨1, 1, some "Widget", 2, 10⟩])]⟩

def c7cells : List String :=
  match render c7agg with
  | .ok c => c
  | .error _ => []

/-- C7 witness: the stored total 99.99 is rendered in the grand-total
band even though the only line item sums to 20.00. -/
theorem C7_pdf_stored_total_witness :
    generate_pdf c7db 1 1000 = (.pdfDoc c7cells, c7db) ∧
    (∃ pre, c7cells = pre ++ ["TOTAL AMOUNT:", "$" ++ fmt2 c7agg.inv.total_amount,
      "Thank you for your business!"]) ∧
    fmt2 ((2 : ℚ) * 10) ≠ fmt2 c7agg.inv.total_amount :=
  ⟨(C7_pdf_stored_total c7db 1 1000 c7agg c7cells rfl rfl).1,
   (C7_pdf_stored_total c7db 1 1000 c7agg c7cells rfl rfl).2,
   by
     have h20 : (2 : ℚ) * 10 = 20 := by norm_num
     rw [h20]
     decide⟩

/-! ## Claim C8 -/

/-- C8: in the PDF items table the displayed description is the stored
string itself when its length is at most 45, and its first 42
characters followed by "..." when longer; the export route never
writes, so the stored description is untouched. -/
theorem C8_description_truncation (it : ItemRow) (d : String) (hd : it.description = some d) :
    (∀ (cells : List String) (t : ℚ), renderItem it = .ok (cells, t) →
        cells.head? = some (truncDesc d)) ∧
    (d.length ≤ 45 → truncDesc d = d) ∧
    (45 < d.length → truncDesc d = d.take 42 ++ "...") ∧
    (∀ (s : DB) (u n : ℤ), (generate_pdf s u n).2 = s) := by
  refine ⟨?_, ?_, ?_, ?_⟩
  · intro cells t h
    rw [renderItem, hd] at h
    have hp := (Except.ok.injEq _ _).mp h
    rw [Prod.mk.injEq] at hp
    rw [← hp.1]
    rfl
  · intro h
    rw [truncDesc, if_neg (Nat.not_lt.mpr h)]
  · intro h
    rw [truncDesc, if_pos h]
  · intro s u n
    rcases hfa : fetchAgg s u n with _ | a
    · simp [generate_pdf, hfa]
    · rcases hr : render a with e | cells
      · simp [generate_pdf, hfa, hr]
      · simp [generate_pdf, hfa, hr]

def c8str : String := String.mk (List.replicate 50 'x')

def c8item : ItemRow := ⟨1, 1, some c8str, 1, 5⟩

def c8db : DB :=
  ⟨[⟨1, 1000, some "2024-01-05", some "Acme", none, none, 5, 1⟩],
   [⟨1, 1, some "Cust", none, none⟩], [c8item], 2, 2, 2⟩

def c8pair : List String × ℚ :=
  match renderItem c8item with
  | .ok p => p
  | .error _ => ([], 0)

set_option maxRecDepth 8000 in
/-- C8 witness: a 50-character description renders as its first 42
characters plus the ellipsis (45 characters in all), and the store is
unchanged by the export. -/
theorem C8_description_truncation_witness :
    c8pair.1.head? = some (truncDesc c8str) ∧
    truncDesc c8str = c8str.take 42 ++ "..." ∧
    (truncDesc c8str).length = 45 ∧
    (generate_pdf c8db 1 1000).2 = c8db :=
  ⟨(C8_description_truncation c8item c8str rfl).1 c8pair.1 c8pair.2 rfl,
   (C8_description_truncation c8item c8str rfl).2.2.1 (by decide),
   rfl,
   (C8_description_truncation c8item c8str rfl).2.2.2 c8db 1 1000⟩

/-! ## Claim C9 -/

def c9item : JVal := .obj [("description", .jstr "W"), ("quantity", .jstr "x")]

def c9req : JVal := .obj [("company_name", .jstr "N"),
  ("customers", .arr [.obj [("name", .jstr "C"), ("items", .arr [c9item])]])]

def c9db : DB :=
  ⟨[⟨1, 1000, some "2024-01-05", some "Old", none, none, 10, 1⟩], [], [], 2, 1, 1⟩

/-- C9 counterexample: an item whose quantity "x" cannot be parsed as
an integer is *not* stored with quantity 1 — the whole Create is
rejected with the generic 500 and nothing is written (Replace
likewise). -/
theorem C9_counterexample :
    pyInt (JVal.jstr "x") = .error () ∧
    create_invoice c9db 1 c9req = (.createFailed, c9db) ∧
    modify_invoice c9db 1 1000 c9req = (.unexpected, c9db) ∧
    (create_invoice c9db 1 c9req).2.items = [] :=
  ⟨rfl, rfl, rfl, rfl⟩

/-- C9 amended: an item whose `quantity` key is *absent* is processed —
and stored — with quantity 1; an item whose quantity is present but
unparseable as an integer makes the whole Create/Replace fail with the
generic 500 and leaves the store unchanged (it is never stored with
quantity 1). -/
theorem C9_quantity_default :
    (∀ (it : JVal) (kvs : List (String × JVal)) (d : Option String) (q : ℤ) (p : ℚ),
        it = .obj kvs → kvs.lookup "quantity" = none →
        processItem it = .ok (d, q, p) → q = 1) ∧
    (∀ (s : DB) (cid : ℤ) (it : JVal) (d : Option String) (q : ℤ) (p : ℚ),
        processItem it = .ok (d, q, p) →
        insertItemsLoop s cid [it] =
          .ok { s with items := s.items ++ [⟨s.nextItemId, cid, d, q, p⟩],
                       nextItemId := s.nextItemId + 1 }) ∧
    (∀ (s : DB) (u n : ℤ) (data : JVal) (cs its : List JVal) (c it qv : JVal),
        reqCustomers data = .ok cs → c ∈ cs → custItems c = .ok its → it ∈ its →
        jgetD it "quantity" (.num 1) = .ok qv → pyInt qv = .error () →
        create_invoice s u data = (.createFailed, s) ∧
        (modify_invoice s u n data).2 = s ∧
        (modify_invoice s u n data).1 ≠ .okSuccess) := by
  refine ⟨?_, ?_, ?_⟩
  · intro it kvs d q p hobj hlk h
    subst hobj
    rw [processItem] at h
    cases h1 : jget (JVal.obj kvs) "description" with
    | error e => simp [h1] at h
    | ok dv =>
      simp only [h1] at h
      cases h2 : sqlText dv with
      | error e => simp [h2] at h
      | ok d2 =>
        simp only [h2] at h
        have hq : jgetD (JVal.obj kvs) "quantity" (.num 1) = .ok (.num 1) := by
          simp [jgetD, hlk]
        simp only [hq] at h
        have hq1 : pyInt (JVal.num 1) = .ok 1 := rfl
        simp only [hq1] at h
        cases h3 : jgetD (JVal.obj kvs) "unit_price" (.num 0) with
        | error e => simp [h3] at h
        | ok pv =>
          simp only [h3] at h
          cases h4 : pyFloat pv with
          | error e => simp [h4] at h
          | ok pq =>
            simp only [h4, Except.ok.injEq, Prod.mk.injEq] at h
            exact h.2.1.symm
  · intro s cid it d q p h
    simp [insertItemsLoop, h, insertItem]
  · intro s u n data cs its c it qv hcs hc hits hit hq hbad
    have hbaditem := processItem_bad_quantity it qv hq hbad
    have hnf := reqCustomers_nonempty_not_falsy data cs c hcs hc
    refine ⟨?_, ?_⟩
    · simp only [create_invoice, hnf, Bool.false_eq_true, if_false]
      cases hb : createBody s u data with
      | error e => rfl
      | ok rs =>
        exfalso
        obtain ⟨n2, s3, _, hrest, _⟩ := createBody_ok_shape s u data rs hb
        exact createRest_bad_item s u data n2 cs its c it hcs hc hits hit hbaditem s3 hrest
    · simp only [modify_invoice, hnf, Bool.false_eq_true, if_false]
      cases hfind : findInvoice s u n with
      | none => exact ⟨rfl, by simp⟩
      | some inv =>
        cases hmb : modifyBody s inv.id data with
        | error e => simp [hmb]
        | ok s2 =>
          exact absurd hmb
            (modifyBody_bad_item s inv.id data cs its c it hcs hc hits hit hbaditem s2)

def c9itemAbs : JVal := .obj [("description", .jstr "W"), ("unit_price", .num 5)]

def c9abs : Option String × ℤ × ℚ :=
  match processItem c9itemAbs with
  | .ok z => z
  | .error _ => (none, 0, 0)

/-- C9 witness: the quantity-less item is processed with quantity 1 and
stored as such; the concrete "x"-quantity request is rejected under
both Create and Replace with the store unchanged. -/
theorem C9_quantity_default_witness :
    c9abs.2.1 = 1 ∧
    insertItemsLoop emptyDB 1 [c9itemAbs] =
      .ok { emptyDB with
            items := emptyDB.items ++ [⟨emptyDB.nextItemId, 1, c9abs.1, c9abs.2.1, c9abs.2.2⟩],
            nextItemId := emptyDB.nextItemId + 1 } ∧
    create_invoice c9db 1 c9req = (.createFailed, c9db) ∧
    (modify_invoice c9db 1 1000 c9req).2 = c9db :=
  ⟨C9_quantity_default.1 c9itemAbs
      [("description", .jstr "W"), ("unit_price", .num 5)] c9abs.1 c9abs.2.1 c9abs.2.2
      rfl rfl rfl,
   C9_quantity_default.2.1 emptyDB 1 c9itemAbs c9abs.1 c9abs.2.1 c9abs.2.2 rfl,
   (C9_quantity_default.2.2 c9db 1 1000 c9req
      [.obj [("name", .jstr "C"), ("items", .arr [c9item])]] [c9item]
      (.obj [("name", .jstr "C"), ("items", .arr [c9item])]) c9item (.jstr "x")
      rfl (List.mem_singleton.mpr rfl) rfl (List.mem_singleton.mpr rfl) rfl rfl).1,
   (C9_quantity_default.2.2 c9db 1 1000 c9req
      [.obj [("name", .jstr "C"), ("items", .arr [c9item])]] [c9item]
      (.obj [("name", .jstr "C"), ("items", .arr [c9item])]) c9item (.jstr "x")
      rfl (List.mem_singleton.mpr rfl) rfl (List.mem_singleton.mpr rfl) rfl rfl).2.1⟩

/-! ## Claim C10 -/

def c10db : DB :=
  ⟨[⟨1, -1, some "2024-01-01", some "A", none, none, 0, 1⟩], [], [], 2, 1, 1⟩

def c10req : JVal := .obj [("company_name", .jstr "A")]

/-- C10 counterexample: with the user's maximum invoice number at -1,
a Create with *no* invoice_number (falsy, so the policy runs) is
assigned -1 + 1 = 0 and an invoice numbered 0 is stored for the
requesting user — so a stored invoice *can* have invoice_number 0 via
Create. -/
theorem C10_counterexample :
    jget c10req "invoice_number" = .ok .null ∧
    jFalsy .null = true ∧
    (create_invoice c10db 1 c10req).1 = .created 0 ∧
    ((create_invoice c10db 1 c10req).2.invoices.map (fun r => r.invoice_number)) = [-1, 0] ∧
    (create_invoice c10db 1 c10req).2.invoices.any
      (fun r => r.invoice_number == 0 && r.user_id == 1) = true :=
  ⟨rfl, rfl, rfl, rfl, rfl⟩

/-- C10 amended: a falsy supplied invoice_number (null/0/""/absent) is
indeed treated as absent — a successful Create reports exactly the
policy's `nextNumber` — but that number is itself 0 exactly when the
user's maximum existing invoice number is -1, so Create can still
store an invoice numbered 0. -/
theorem C10_falsy_number_policy (s : DB) (u : ℤ) (data v : JVal)
    (hv : jget data "invoice_number" = .ok v) (hfal : jFalsy v = true) :
    (∀ (m : ℤ) (s2 : DB), create_invoice s u data = (.created m, s2) → m = nextNumber s u) ∧
    (nextNumber s u = 0 ↔ userMax s u = some (-1)) := by
  refine ⟨?_, ?_⟩
  · intro m s2 hc
    exact create_falsy_uses_policy s u data v m s2 hv hfal hc
  · rw [nextNumber]
    cases hm : userMax s u with
    | none =>
      constructor
      · intro h
        exact absurd h (by decide)
      · intro h
        cases h
    | some m =>
      by_cases h0 : m = 0
      · subst h0
        constructor
        · intro h
          exact absurd h (by decide)
        · intro h
          exact absurd ((Option.some.injEq _ _).mp h) (by decide)
      · constructor
        · intro h
          have h2 : (if m ≠ 0 then m else 999) + 1 = 0 := h
          rw [if_pos h0] at h2
          have hm1 : m = -1 := by omega
          rw [hm1]
        · intro h
          have hm1 : m = -1 := (Option.some.injEq _ _).mp h
          subst hm1
          decide

/-- C10 witness: in the concrete max = -1 store the policy's next
number is 0, and the concrete auto-numbered Create reports exactly that
policy number. -/
theorem C10_falsy_number_policy_witness :
    0 = nextNumber c10db 1 ∧ nextNumber c10db 1 = 0 :=
  ⟨(C10_falsy_number_policy c10db 1 c10req .null rfl rfl).1 0
      (create_invoice c10db 1 c10req).2 rfl,
   (C10_falsy_number_policy c10db 1 c10req .null rfl rfl).2.mpr rfl⟩
